import Mathlib

/-!
Formal model of the spreadsheet-ingestion and KPI-computation core of the
repository (`src/lib/excel-utils.ts`).

Modelling conventions:
* JavaScript numbers are modelled as rationals (`ℚ`); every arithmetic
  operation performed by the code on the values it accepts is exact
  field arithmetic, so `ℚ` is a faithful carrier (the code rejects
  `NaN`/`Infinity` inputs up front).
* A spreadsheet cell (the result of `sheet_to_json` with `raw: true`)
  is a number, a string, or absent (`undefined`); that is `CellValue`.
  Boolean cells are not modelled (no claim exercises them).
* JavaScript exceptions / promise rejections are modelled with
  `Except String`, carrying the thrown message.
* `Array.prototype.sort` with the numeric comparator
  `(a, b) => new Date(a.date).getTime() - new Date(b.date).getTime()`
  is required by ECMA-262 (ES2019) to be a stable sort; it is modelled
  as the stable `List.insertionSort` over the same key.
* `new Date(s)` for the date strings the ingestor accepts is modelled on
  the ISO `YYYY-MM-DD` subset (the interchange format ECMA-262 actually
  specifies; other accepted formats are implementation-defined and are
  not exercised by the template, the spec, or any claim).  `getTime()` of
  such a date is UTC midnight of the civil date, computed exactly.
-/

/-- Maximum number of data rows accepted by the ingestor (`MAX_ROWS`). -/
def MAX_ROWS : Nat := 1000

/-- Upper bound accepted for numeric cells (`MAX_NUMBER_VALUE = 1e12`). -/
def MAX_NUMBER_VALUE : ℚ := 1000000000000

/-- Lower bound accepted for numeric cells (`MIN_NUMBER_VALUE = -1e12`). -/
def MIN_NUMBER_VALUE : ℚ := -1000000000000

/-- Cap on date strings before parsing (`MAX_DATE_STRING_LENGTH`). -/
def MAX_DATE_STRING_LENGTH : Nat := 50

/-- A raw spreadsheet cell as produced by `sheet_to_json` with `raw: true`:
a number, a string, or absent (`undefined`). -/
inductive CellValue where
  | num (q : ℚ)
  | str (s : String)
  | empty
deriving DecidableEq

/-- JavaScript truthiness of a cell value: `0`, `''` and `undefined` are
falsy, every other number or string is truthy (`NaN` cannot occur: cells
hold finite numbers). -/
def CellValue.truthy : CellValue → Bool
  | .num q => decide (q ≠ 0)
  | .str s => decide (s ≠ "")
  | .empty => false

/-- The JavaScript `||` operator on cell values: the first operand if it
is truthy, otherwise the second. -/
def jsOr (a b : CellValue) : CellValue := if a.truthy then a else b

/-- Numeric value of a list of decimal digit characters (most significant
first), accumulator style. -/
def digitsVal : List Char → Nat → Nat
  | [], acc => acc
  | c :: cs, acc => digitsVal cs (acc * 10 + (c.toNat - 48))

/-- Exponent part of a JavaScript float literal, after the `e`/`E` marker:
an optional sign followed by digits.  If no digits follow, the marker is
not part of the longest valid prefix and the exponent is `0`. -/
def expValue (cs : List Char) : Int :=
  match cs with
  | '+' :: t =>
      let ds := (t.span Char.isDigit).1
      if ds.isEmpty then 0 else (digitsVal ds 0 : Int)
  | '-' :: t =>
      let ds := (t.span Char.isDigit).1
      if ds.isEmpty then 0 else -(digitsVal ds 0 : Int)
  | t =>
      let ds := (t.span Char.isDigit).1
      if ds.isEmpty then 0 else (digitsVal ds 0 : Int)

/-- JavaScript `parseFloat` on a character sequence: skip leading
whitespace, then read the longest prefix of the form
`[+-]? digits [. digits]? ([eE] [+-]? digits)?`; trailing junk is
ignored.  `none` models `NaN` (no numeric prefix).  `parseFloat` can also
return `±Infinity` (for an `Infinity` prefix), but the caller rejects
non-finite results with exactly the same error as `NaN`, so `none` also
covers that case. -/
def parseFloatChars (cs0 : List Char) : Option ℚ :=
  let cs := cs0.dropWhile Char.isWhitespace
  let signRest : ℚ × List Char :=
    match cs with
    | '-' :: t => (-1, t)
    | '+' :: t => (1, t)
    | t => (1, t)
  let ipRest := signRest.2.span Char.isDigit
  let fpRest : List Char × List Char :=
    match ipRest.2 with
    | '.' :: t => t.span Char.isDigit
    | t => ([], t)
  if ipRest.1.isEmpty ∧ fpRest.1.isEmpty then
    none
  else
    let mant : ℚ := (digitsVal ipRest.1 0 : ℚ) +
      (digitsVal fpRest.1 0 : ℚ) / (10 : ℚ) ^ fpRest.1.length
    let e : Int :=
      match fpRest.2 with
      | 'e' :: t => expValue t
      | 'E' :: t => expValue t
      | _ => 0
    some (signRest.1 * mant * (10 : ℚ) ^ e)

/-- `parseFloat(String(val))` as used by `validateNumber`: stringifying a
finite number and re-parsing it is the identity, a string is parsed as a
float prefix, and `String(undefined) = "undefined"` parses to `NaN`. -/
def jsParseFloatOfString : CellValue → Option ℚ
  | .num q => some q
  | .str s => parseFloatChars s.data
  | .empty => none

/-- `validateNumber(val, fieldName, min, max, allowZero)`: absent or
empty-string input yields `0` when `allowZero`, otherwise a
"required" error; a non-numeric value (`NaN` or non-finite) is an
"invalid number" error; an out-of-range value is a range error;
otherwise the parsed number is returned.  (The source renders the bounds
in the range message with `toLocaleString()`; the model renders them
with `toString`, which no claim observes.) -/
def validateNumber (val : CellValue) (fieldName : String) (mn mx : ℚ)
    (allowZero : Bool) : Except String ℚ :=
  if val = .empty ∨ val = .str "" then
    if allowZero then .ok 0 else .error (fieldName ++ " is required")
  else
    match jsParseFloatOfString val with
    | none => .error ("Invalid " ++ fieldName ++ ": must be a valid number")
    | some num =>
      if num < mn ∨ num > mx then
        .error ("Invalid " ++ fieldName ++ ": value must be between " ++
          toString mn ++ " and " ++ toString mx)
      else
        .ok num

/-- `validatePositiveNumber`: bounds `[0, MAX_NUMBER_VALUE]`. -/
def validatePositiveNumber (val : CellValue) (fieldName : String) : Except String ℚ :=
  validateNumber val fieldName 0 MAX_NUMBER_VALUE true

/-- `validatePercentage`: bounds `[0, 100]`. -/
def validatePercentage (val : CellValue) (fieldName : String) : Except String ℚ :=
  validateNumber val fieldName 0 100 true

/-- Leap years of the Gregorian calendar. -/
def isLeapYear (y : Int) : Bool :=
  (y % 4 == 0 && y % 100 != 0) || y % 400 == 0

/-- Number of days of month `m` of year `y`. -/
def daysInMonth (y m : Int) : Int :=
  if m = 2 then (if isLeapYear y then 29 else 28)
  else if m = 4 ∨ m = 6 ∨ m = 9 ∨ m = 11 then 30
  else 31

/-- Numeric value of a decimal digit character. -/
def digitVal (c : Char) : Int := (c.toNat : Int) - 48

/-- Recognize an ISO `YYYY-MM-DD` calendar date (the date-string form the
ingestor's inputs use); yields the (year, month, day) triple. -/
def parseIsoDate (cs : List Char) : Option (Int × Int × Int) :=
  match cs with
  | [y1, y2, y3, y4, '-', m1, m2, '-', d1, d2] =>
    if y1.isDigit && y2.isDigit && y3.isDigit && y4.isDigit &&
       m1.isDigit && m2.isDigit && d1.isDigit && d2.isDigit then
      let y := digitVal y1 * 1000 + digitVal y2 * 100 + digitVal y3 * 10 + digitVal y4
      let m := digitVal m1 * 10 + digitVal m2
      let d := digitVal d1 * 10 + digitVal d2
      if 1 ≤ m ∧ m ≤ 12 ∧ 1 ≤ d ∧ d ≤ daysInMonth y m then some (y, m, d) else none
    else none
  | _ => none

/-- Days from 1970-01-01 to civil date `y-m-d` (proleptic Gregorian);
`Int` division in Lean rounds toward negative infinity for positive
divisors, which is what the computation needs. -/
def daysFromCivil (y m d : Int) : Int :=
  let yAdj := if m ≤ 2 then y - 1 else y
  let era := yAdj / 400
  let yoe := yAdj - era * 400
  let mp := (m + 9) % 12
  let doy := (153 * mp + 2) / 5 + d - 1
  let doe := yoe * 365 + yoe / 4 - yoe / 100 + doy
  era * 146097 + doe - 719468

/-- Civil date from days since 1970-01-01 (inverse of `daysFromCivil`). -/
def civilFromDays (z0 : Int) : Int × Int × Int :=
  let z := z0 + 719468
  let era := z / 146097
  let doe := z - era * 146097
  let yoe := (doe - doe / 1460 + doe / 36524 - doe / 146096) / 365
  let yAdj := yoe + era * 400
  let doy := doe - (365 * yoe + yoe / 4 - yoe / 100)
  let mp := (5 * doy + 2) / 153
  let d := doy - (153 * mp + 2) / 5 + 1
  let m := if mp < 10 then mp + 3 else mp - 9
  ((if m ≤ 2 then yAdj + 1 else yAdj), m, d)

/-- `new Date(s).getTime()` for the date strings the ingestor produces:
UTC midnight of the ISO civil date, in milliseconds since the epoch.
An unparseable string gives `NaN` in JavaScript; the ingestor never
stores such a string, and the model returns `0` there. -/
def dateTime (s : String) : Int :=
  match parseIsoDate s.data with
  | some (y, m, d) => daysFromCivil y m d * 86400000
  | none => 0

/-- Strip leading and trailing whitespace (JavaScript `trim`). -/
def trimChars (cs : List Char) : List Char :=
  ((cs.dropWhile Char.isWhitespace).reverse.dropWhile Char.isWhitespace).reverse

/-- Two-digit zero-padded decimal rendering. -/
def padNat2 (n : Nat) : List Char :=
  [Char.ofNat (48 + n / 10 % 10), Char.ofNat (48 + n % 10)]

/-- Four-digit zero-padded decimal rendering. -/
def padNat4 (n : Nat) : List Char :=
  [Char.ofNat (48 + n / 1000 % 10), Char.ofNat (48 + n / 100 % 10),
   Char.ofNat (48 + n / 10 % 10), Char.ofNat (48 + n % 10)]

/-- `toISOString().split('T')[0]` of a civil date. -/
def isoDateString (y m d : Int) : String :=
  String.mk (padNat4 y.toNat ++ '-' :: padNat2 m.toNat ++ '-' :: padNat2 d.toNat)

/-- `getTime()` of `new Date(1899, 11, 30)`, the Excel serial-date epoch
1899-12-30, taken at UTC midnight (the source constructs it in the local
time zone; the model fixes UTC). -/
def EXCEL_EPOCH_MS : Int := -2209161600000

/-- Truncation of a rational toward zero (JavaScript's `TimeClip` /
`ToInteger` on a time value). -/
def ratTrunc (q : ℚ) : Int := if q ≥ 0 then Rat.floor q else Rat.ceil q

/-- `validateDate(dateStr)`: absent or empty-string input is a hard
failure; a numeric cell is an Excel serial day count converted via
`epoch + days × 86400000 ms` and rendered as an ISO day string; a string
cell is truncated to 50 characters, trimmed, and must parse as a
calendar date, in which case the trimmed string itself is returned. -/
def validateDate (dateStr : CellValue) : Except String String :=
  match dateStr with
  | .empty => .error "Date is required"
  | .num d =>
    let t : Int := ratTrunc (EXCEL_EPOCH_MS + d * 86400000)
    if t < -8640000000000000 ∨ t > 8640000000000000 then
      .error "Invalid date format"
    else
      let ymd := civilFromDays (t / 86400000)
      .ok (isoDateString ymd.1 ymd.2.1 ymd.2.2)
  | .str s =>
    if s = "" then .error "Date is required"
    else
      let trimmed := trimChars (s.data.take MAX_DATE_STRING_LENGTH)
      if (parseIsoDate trimmed).isSome then .ok (String.mk trimmed)
      else .error "Invalid date format"

/-- One validated financial-period record (`FinancialData`). -/
structure FinancialData where
  date : String
  revenue : ℚ
  operatingExpenses : ℚ
  customerCount : ℚ
  churnRate : ℚ
  cashIn : ℚ
  cashOut : ℚ
  cashBalance : ℚ
deriving DecidableEq

/-- One raw spreadsheet row, restricted to the column headers the
ingestor consults. -/
structure Row where
  date : CellValue
  month : CellValue
  revenue : CellValue
  mrr : CellValue
  operatingExpenses : CellValue
  expenses : CellValue
  customerCount : CellValue
  customers : CellValue
  churnRate : CellValue
  churn : CellValue
  cashIn : CellValue
  cashOut : CellValue
  cashBalance : CellValue
deriving DecidableEq

/-- Validation of a single row into a `FinancialData` record, with the
source's alias fallbacks (`row['Date'] || row['Month']` etc.), field
order, and `Math.floor` on the customer count. -/
def parseRow (row : Row) : Except String FinancialData := do
  let date ← validateDate (jsOr row.date row.month)
  let revenue ← validatePositiveNumber (jsOr (jsOr row.revenue row.mrr) (.num 0)) "Revenue"
  let operatingExpenses ← validatePositiveNumber
    (jsOr (jsOr row.operatingExpenses row.expenses) (.num 0)) "Operating Expenses"
  let customerCountRaw ← validatePositiveNumber
    (jsOr (jsOr row.customerCount row.customers) (.num 0)) "Customer Count"
  let churnRate ← validatePercentage (jsOr (jsOr row.churnRate row.churn) (.num 0)) "Churn Rate"
  let cashIn ← validatePositiveNumber (jsOr row.cashIn (.num 0)) "Cash In"
  let cashOut ← validatePositiveNumber (jsOr row.cashOut (.num 0)) "Cash Out"
  let cashBalance ← validateNumber (jsOr row.cashBalance (.num 0)) "Cash Balance"
    MIN_NUMBER_VALUE MAX_NUMBER_VALUE true
  .ok ⟨date, revenue, operatingExpenses, ((Rat.floor customerCountRaw : Int) : ℚ),
    churnRate, cashIn, cashOut, cashBalance⟩

/-- The per-row loop of `parseExcelFile`: rows are validated in order and
the first failure aborts the whole parse with the spreadsheet's visible
row number (`index + 2`: 1-indexing plus the header row). -/
def parseRowsLoop : List Row → Nat → Except String (List FinancialData)
  | [], _ => .ok []
  | row :: rest, index =>
    match parseRow row with
    | .error e => .error ("Row " ++ toString (index + 2) ++ ": " ++ e)
    | .ok rec => (parseRowsLoop rest (index + 1)).map (fun l => rec :: l)

/-- The row-processing core of `parseExcelFile`, from the decoded sheet
rows onward (workbook decoding itself is the external `xlsx` library):
empty-sheet and row-cap checks, the all-or-nothing row loop, and the
final required-column check on the first parsed record. -/
def parseExcelRows (jsonData : List Row) : Except String (List FinancialData) :=
  if jsonData.length = 0 then .error "No data found in file"
  else if jsonData.length > MAX_ROWS then
    .error ("File contains too many rows (" ++ toString jsonData.length ++
      "). Maximum " ++ toString MAX_ROWS ++ " rows allowed.")
  else
    match parseRowsLoop jsonData 0 with
    | .error e => .error e
    | .ok parsedData =>
      match parsedData.head? with
      | some firstRow =>
        if firstRow.date = "" then .error "Missing required column: Date or Month"
        else .ok parsedData
      | none => .error "Missing required column: Date or Month"

/-- The derived KPI snapshot (`KPIMetrics`). -/
structure KPIMetrics where
  mrr : ℚ
  mrrChange : ℚ
  cac : ℚ
  cacChange : ℚ
  churnRate : ℚ
  churnChange : ℚ
  burnRate : ℚ
  burnRateChange : ℚ
  runway : ℚ
  runwayMonths : ℚ
  ltvCacRatio : ℚ
  ltvCacChange : ℚ
  arpu : ℚ
  arpuChange : ℚ
deriving DecidableEq

/-- CAC of one record: `operatingExpenses / customerCount`, guarded to
`0` when the customer count is not positive. -/
def cacOf (r : FinancialData) : ℚ :=
  if r.customerCount > 0 then r.operatingExpenses / r.customerCount else 0

/-- Simplified LTV of one record: `revenue × 12 × 3 / customerCount`,
guarded to `0` when the customer count is not positive. -/
def ltvOf (r : FinancialData) : ℚ :=
  if r.customerCount > 0 then r.revenue * 12 * 3 / r.customerCount else 0

/-- LTV/CAC ratio of one record, guarded to `0` when CAC is not
positive. -/
def ltvCacRatioOf (r : FinancialData) : ℚ :=
  if cacOf r > 0 then ltvOf r / cacOf r else 0

/-- ARPU of one record: `revenue / customerCount`, guarded to `0` when
the customer count is not positive. -/
def arpuOf (r : FinancialData) : ℚ :=
  if r.customerCount > 0 then r.revenue / r.customerCount else 0

/-- Net burn of one record: `cashOut - cashIn`. -/
def netBurn (r : FinancialData) : ℚ := r.cashOut - r.cashIn

/-- Month-over-month percent change, `0` when the previous value is `0`
(JavaScript `prev ? (cur - prev) / prev * 100 : 0`). -/
def pctChange (cur prev : ℚ) : ℚ :=
  if prev ≠ 0 then (cur - prev) / prev * 100 else 0

/-- Chronological comparison of records, the sort key of the engine. -/
def dateLe (a b : FinancialData) : Prop := dateTime a.date ≤ dateTime b.date

instance : DecidableRel dateLe :=
  fun a b => inferInstanceAs (Decidable (dateTime a.date ≤ dateTime b.date))

instance : IsTotal FinancialData dateLe := ⟨fun a b => Int.le_total _ _⟩

instance : IsTrans FinancialData dateLe := ⟨fun _ _ _ h1 h2 => le_trans h1 h2⟩

/-- The engine's chronological sort: a stable sort of a copy of the
input, ascending by `new Date(date).getTime()`. -/
def sortByDate (data : List FinancialData) : List FinancialData :=
  data.insertionSort dateLe

/-- Mean of `cashOut - cashIn` over a record list (the engine's
`avgBurnRate`). -/
def avgBurnOf (l : List FinancialData) : ℚ := (l.map netBurn).sum / l.length

/-- The `previous` record: second-to-last of the sorted list, or the
current record itself when only one record exists. -/
def prevOf (l : List FinancialData) (cur : FinancialData) : FinancialData :=
  if l.length > 1 then (l[l.length - 2]?).getD cur else cur

/-- The metric block computed by `calculateKPIs` once `sortedData`,
`current` and `previous` are fixed; field by field the formulas of the
source, with the shared per-record formulas factored out (the source
inlines `previousCac`, `previousLtv`, … with identical guarded
formulas). -/
def kpisCore (sortedData : List FinancialData) (current previous : FinancialData) : KPIMetrics :=
  let mrr := current.revenue
  let avgBurnRate := avgBurnOf sortedData
  let runwayMonths := if avgBurnRate > 0 then current.cashBalance / avgBurnRate else 999
  ⟨mrr, pctChange mrr previous.revenue,
   cacOf current, pctChange (cacOf current) (cacOf previous),
   current.churnRate, pctChange current.churnRate previous.churnRate,
   netBurn current, pctChange (netBurn current) (netBurn previous),
   runwayMonths * 30, runwayMonths,
   ltvCacRatioOf current, pctChange (ltvCacRatioOf current) (ltvCacRatioOf previous),
   arpuOf current, pctChange (arpuOf current) (arpuOf previous)⟩

/-- `calculateKPIs(data)`: throws on empty input, otherwise sorts a copy
chronologically, takes `current`/`previous`, and computes the metric
block.  (The `none` branch of `getLast?` is unreachable: the sorted copy
of a non-empty list is non-empty.) -/
def calculateKPIs (data : List FinancialData) : Except String KPIMetrics :=
  if data.length = 0 then
    .error "No data available for calculations"
  else
    let sortedData := sortByDate data
    match sortedData.getLast? with
    | none => .error "No data available for calculations"
    | some current => .ok (kpisCore sortedData current (prevOf sortedData current))

/-- January row of the bundled template (also the spec's two-record
scenario's first record). -/
def recJan : FinancialData := ⟨"2024-01-01", 50000, 30000, 100, 5, 55000, 35000, 200000⟩

/-- February row of the bundled template (the scenario's second
record). -/
def recFeb : FinancialData := ⟨"2024-02-01", 55000, 32000, 110, 4.5, 60000, 37000, 223000⟩

/-- A record whose customer count is zero. -/
def recZeroCust : FinancialData := ⟨"2024-03-01", 1000, 500, 0, 2, 100, 200, 5000⟩

/-- Two records sharing one date, differing in revenue. -/
def dupA : FinancialData := ⟨"2024-05-01", 1, 0, 0, 0, 0, 0, 0⟩

/-- See `dupA`. -/
def dupB : FinancialData := ⟨"2024-05-01", 2, 0, 0, 0, 0, 0, 0⟩

/-- A row whose `Revenue` cell is the non-numeric string `"abc"`. -/
def rowBadRevenue : Row :=
  ⟨.str "2024-01-01", .empty, .str "abc", .empty, .empty, .empty, .empty,
   .empty, .empty, .empty, .empty, .empty, .empty⟩

/-- A row with `Revenue = 0` and `MRR = 500`. -/
def rowZeroRev : Row :=
  ⟨.str "2024-01-01", .empty, .num 0, .num 500, .empty, .empty, .empty,
   .empty, .empty, .empty, .empty, .empty, .empty⟩

/-- The rational 107/10 = 10.7, given in normalized form so that it
evaluates definitionally. -/
def ratTenPointSeven : ℚ := ⟨107, 10, by norm_num, by norm_num⟩

/-- A row with no `Revenue` column and `MRR = 500`, and a fractional
customer count of 10.7. -/
def rowAliasOnly : Row :=
  ⟨.str "2024-01-01", .empty, .empty, .num 500, .num 200, .empty, .num ratTenPointSeven,
   .empty, .num 3, .empty, .num 40, .num 60, .num (-100)⟩

/-- A row whose `Date` and `Month` cells are both absent. -/
def rowNoDate : Row :=
  ⟨.empty, .empty, .num 1, .empty, .empty, .empty, .empty,
   .empty, .empty, .empty, .empty, .empty, .empty⟩

/-- Strict chronological comparison, used to identify the sorted order
uniquely when all dates are distinct. -/
def dateLt (a b : FinancialData) : Prop := dateTime a.date < dateTime b.date

instance : IsAntisymm FinancialData dateLt :=
  ⟨fun _ _ h1 h2 => absurd (lt_trans h1 h2) (lt_irrefl _)⟩

theorem sortByDate_perm (data : List FinancialData) : (sortByDate data).Perm data :=
  List.perm_insertionSort dateLe data

theorem sortByDate_length (data : List FinancialData) :
    (sortByDate data).length = data.length :=
  (sortByDate_perm data).length_eq

theorem avgBurn_sortByDate (data : List FinancialData) :
    avgBurnOf (sortByDate data) = avgBurnOf data := by
  unfold avgBurnOf
  rw [((sortByDate_perm data).map netBurn).sum_eq, (sortByDate_perm data).length_eq]

theorem pctChange_self (x : ℚ) : pctChange x x = 0 := by
  unfold pctChange
  split <;> simp

theorem calculateKPIs_ok {data : List FinancialData} (h : data ≠ []) :
    ∃ cur, (sortByDate data).getLast? = some cur ∧
      calculateKPIs data =
        .ok (kpisCore (sortByDate data) cur (prevOf (sortByDate data) cur)) := by
  have hlen : ¬ data.length = 0 := by simpa [List.length_eq_zero] using h
  have hs : sortByDate data ≠ [] := by
    intro hnil
    exact hlen (by rw [← sortByDate_length data, hnil, List.length_nil])
  obtain ⟨cur, hcur⟩ := Option.isSome_iff_exists.mp (List.getLast?_isSome.mpr hs)
  refine ⟨cur, hcur, ?_⟩
  unfold calculateKPIs
  rw [if_neg hlen]
  simp only [hcur]

/-- C1: on the two-record input Jan (revenue 50000, customers 100, opex
30000, churn 5, cashIn 55000, cashOut 35000, balance 200000) and Feb
(revenue 55000, customers 110, opex 32000, churn 4.5, cashIn 60000,
cashOut 37000, balance 223000), `calculateKPIs` returns MRR = 55000,
mrrChange = 10 (percent), CAC = 32000/110, churnRate = 4.5,
burnRate = -23000, and ARPU = 500. -/
theorem C1_template_scenario :
    ∃ m, calculateKPIs [recJan, recFeb] = .ok m ∧
      m.mrr = 55000 ∧ m.mrrChange = 10 ∧ m.cac = 32000 / 110 ∧
      m.churnRate = 4.5 ∧ m.burnRate = -23000 ∧ m.arpu = 500 := by
  refine ⟨kpisCore [recJan, recFeb] recFeb recJan, rfl, rfl, ?_, ?_, rfl, ?_, ?_⟩
  · show pctChange recFeb.revenue recJan.revenue = 10
    simp only [pctChange, recJan, recFeb]
    norm_num
  · show cacOf recFeb = 32000 / 110
    simp only [cacOf, recFeb]
    norm_num
  · show netBurn recFeb = -23000
    simp only [netBurn, recFeb]
    norm_num
  · show arpuOf recFeb = 500
    simp only [arpuOf, recFeb]
    norm_num

theorem kpisCore_runwayMonths (s : List FinancialData) (c p : FinancialData) :
    (kpisCore s c p).runwayMonths =
      if avgBurnOf s > 0 then c.cashBalance / avgBurnOf s else 999 := rfl

theorem kpisCore_runway (s : List FinancialData) (c p : FinancialData) :
    (kpisCore s c p).runway = (kpisCore s c p).runwayMonths * 30 := rfl

theorem kpisCore_cac (s : List FinancialData) (c p : FinancialData) :
    (kpisCore s c p).cac = cacOf c := rfl

theorem kpisCore_arpu (s : List FinancialData) (c p : FinancialData) :
    (kpisCore s c p).arpu = arpuOf c := rfl

theorem kpisCore_ltvCacRatio (s : List FinancialData) (c p : FinancialData) :
    (kpisCore s c p).ltvCacRatio = ltvCacRatioOf c := rfl

/-- C2: for every non-empty record sequence, `calculateKPIs` sets
`runwayMonths` to `current.cashBalance / mean of (cashOut - cashIn) over
all records` when that mean is strictly positive and to the sentinel
`999` when the mean is not positive, and in both cases the day-count
`runway` equals `runwayMonths * 30` (hence `29970` in the sentinel
case). -/
theorem C2_runway (data : List FinancialData) (m : KPIMetrics) (cur : FinancialData)
    (hok : calculateKPIs data = .ok m)
    (hcur : (sortByDate data).getLast? = some cur) :
    (avgBurnOf data > 0 → m.runwayMonths = cur.cashBalance / avgBurnOf data) ∧
    (avgBurnOf data ≤ 0 → m.runwayMonths = 999 ∧ m.runway = 29970) ∧
    m.runway = m.runwayMonths * 30 := by
  have hne : data ≠ [] := by
    intro h
    subst h
    simp [calculateKPIs] at hok
  obtain ⟨cur', hcur', heq⟩ := calculateKPIs_ok hne
  rw [heq] at hok
  have hm := (Except.ok.inj hok).symm
  have hc : cur' = cur := by
    rw [hcur'] at hcur
    exact Option.some.inj hcur
  subst hc
  subst hm
  have havg : avgBurnOf (sortByDate data) = avgBurnOf data := avgBurn_sortByDate data
  refine ⟨?_, ?_, kpisCore_runway _ _ _⟩
  · intro hpos
    rw [kpisCore_runwayMonths, havg, if_pos hpos]
  · intro hnonpos
    have h999 : (kpisCore (sortByDate data) cur' (prevOf (sortByDate data) cur')).runwayMonths = 999 := by
      rw [kpisCore_runwayMonths, havg, if_neg (not_lt.mpr hnonpos)]
    refine ⟨h999, ?_⟩
    rw [kpisCore_runway, h999]
    norm_num

/-- C2 witness: a single cash-positive record (cashOut 35000 < cashIn
55000) gives the sentinel runway of 999 months / 29970 days. -/
theorem C2_runway_witness :
    (kpisCore [recJan] recJan recJan).runwayMonths = 999 ∧
    (kpisCore [recJan] recJan recJan).runway = 29970 :=
  (C2_runway [recJan] (kpisCore [recJan] recJan recJan) recJan rfl rfl).2.1
    (by simp [avgBurnOf, netBurn, recJan]; norm_num)

/-- C5: `calculateKPIs` fails exactly on the structurally empty input
(with the empty-input message), and returns a `KPIMetrics` result for
every non-empty input — in the model it is a total function into
`Except`, so no division error can escape: every division in the source
is guarded to `0` or to the runway sentinel. -/
theorem C5_empty_input_only (data : List FinancialData) :
    (data = [] → calculateKPIs data = .error "No data available for calculations") ∧
    (data ≠ [] → ∃ m, calculateKPIs data = .ok m) := by
  constructor
  · intro h
    subst h
    rfl
  · intro h
    obtain ⟨cur, _, heq⟩ := calculateKPIs_ok h
    exact ⟨_, heq⟩

/-- C5 witness: the empty sequence is rejected with the empty-input
error, and the one-record sequence `[recJan]` yields a result. -/
theorem C5_empty_input_only_witness :
    calculateKPIs [] = .error "No data available for calculations" ∧
    ∃ m, calculateKPIs [recJan] = .ok m :=
  ⟨(C5_empty_input_only []).1 rfl,
   (C5_empty_input_only [recJan]).2 (by simp)⟩

/-- C6: whenever the chronologically last record has `customerCount = 0`,
the result has CAC = 0, ARPU = 0, LTV = 0 (the internal `ltv` value of
the source, exposed as `ltvOf`), and LTV/CAC ratio = 0. -/
theorem C6_zero_customers (data : List FinancialData) (m : KPIMetrics) (cur : FinancialData)
    (hok : calculateKPIs data = .ok m)
    (hcur : (sortByDate data).getLast? = some cur)
    (hzero : cur.customerCount = 0) :
    m.cac = 0 ∧ m.arpu = 0 ∧ ltvOf cur = 0 ∧ m.ltvCacRatio = 0 := by
  have hne : data ≠ [] := by
    intro h
    subst h
    simp [calculateKPIs] at hok
  obtain ⟨cur', hcur', heq⟩ := calculateKPIs_ok hne
  rw [heq] at hok
  have hm := (Except.ok.inj hok).symm
  have hc : cur' = cur := by
    rw [hcur'] at hcur
    exact Option.some.inj hcur
  subst hc
  subst hm
  have hnotpos : ¬ cur'.customerCount > 0 := by rw [hzero]; norm_num
  have hcac : cacOf cur' = 0 := by unfold cacOf; rw [if_neg hnotpos]
  refine ⟨?_, ?_, ?_, ?_⟩
  · rw [kpisCore_cac]
    exact hcac
  · rw [kpisCore_arpu]
    unfold arpuOf
    rw [if_neg hnotpos]
  · unfold ltvOf
    rw [if_neg hnotpos]
  · rw [kpisCore_ltvCacRatio]
    unfold ltvCacRatioOf
    rw [hcac, if_neg (by norm_num)]

/-- C6 witness: a single record with zero customers. -/
theorem C6_zero_customers_witness :
    (kpisCore [recZeroCust] recZeroCust recZeroCust).cac = 0 ∧
    (kpisCore [recZeroCust] recZeroCust recZeroCust).arpu = 0 ∧
    ltvOf recZeroCust = 0 ∧
    (kpisCore [recZeroCust] recZeroCust recZeroCust).ltvCacRatio = 0 :=
  C6_zero_customers [recZeroCust] (kpisCore [recZeroCust] recZeroCust recZeroCust)
    recZeroCust rfl rfl rfl

/-- C7: for a single-record input, `previous` is the current record
itself and every month-over-month change field is `0`. -/
theorem C7_single_record_changes (r : FinancialData) :
    ∃ m, calculateKPIs [r] = .ok m ∧
      m.mrrChange = 0 ∧ m.cacChange = 0 ∧ m.churnChange = 0 ∧
      m.burnRateChange = 0 ∧ m.ltvCacChange = 0 ∧ m.arpuChange = 0 := by
  refine ⟨kpisCore [r] r r, rfl, ?_, ?_, ?_, ?_, ?_, ?_⟩ <;>
    exact pctChange_self _

/-- C3 counterexample: the claim asserts permutation-invariance even for
sequences containing records with equal dates, but with two records
sharing one date the stable sort preserves the input order, so which
record is `current` — and hence the MRR — depends on the input order. -/
theorem C3_counterexample :
    ([dupB, dupA] : List FinancialData).Perm [dupA, dupB] ∧
    calculateKPIs [dupA, dupB] ≠ calculateKPIs [dupB, dupA] := by
  constructor
  · exact List.Perm.swap _ _ _
  · have h1 : calculateKPIs [dupA, dupB] = .ok (kpisCore [dupA, dupB] dupB (prevOf [dupA, dupB] dupB)) := rfl
    have h2 : calculateKPIs [dupB, dupA] = .ok (kpisCore [dupB, dupA] dupA (prevOf [dupB, dupA] dupA)) := rfl
    rw [h1, h2]
    intro h
    have hmrr := congrArg KPIMetrics.mrr (Except.ok.inj h)
    have : dupB.revenue = dupA.revenue := hmrr
    simp [dupA, dupB] at this

/-- C3 amended: `calculateKPIs` is invariant under permutation of any
input of length at least 2 whose records have pairwise-distinct dates
(the engine re-sorts internally, and with distinct sort keys the stable
sort's result does not depend on the input order).  With duplicate dates
the invariance fails, as `C3_counterexample` shows. -/
theorem C3_perm_invariant (l₁ l₂ : List FinancialData)
    (hlen : 2 ≤ l₁.length) (hperm : l₁.Perm l₂)
    (hnd : (l₁.map (fun r => dateTime r.date)).Nodup) :
    calculateKPIs l₁ = calculateKPIs l₂ := by
  have hp : (sortByDate l₁).Perm (sortByDate l₂) :=
    (sortByDate_perm l₁).trans (hperm.trans (sortByDate_perm l₂).symm)
  have hkey1 : ((sortByDate l₁).map (fun r => dateTime r.date)).Nodup :=
    (((sortByDate_perm l₁).map (fun r => dateTime r.date)).nodup_iff).mpr hnd
  have hnd2 : (l₂.map (fun r => dateTime r.date)).Nodup :=
    ((hperm.map (fun r => dateTime r.date)).nodup_iff).mp hnd
  have hkey2 : ((sortByDate l₂).map (fun r => dateTime r.date)).Nodup :=
    (((sortByDate_perm l₂).map (fun r => dateTime r.date)).nodup_iff).mpr hnd2
  have hstrict1 : List.Sorted dateLt (sortByDate l₁) := by
    have hle := List.sorted_insertionSort dateLe l₁
    have hne := List.pairwise_map.mp hkey1
    exact (hle.and hne).imp (fun hab => lt_of_le_of_ne hab.1 hab.2)
  have hstrict2 : List.Sorted dateLt (sortByDate l₂) := by
    have hle := List.sorted_insertionSort dateLe l₂
    have hne := List.pairwise_map.mp hkey2
    exact (hle.and hne).imp (fun hab => lt_of_le_of_ne hab.1 hab.2)
  have hsorteq : sortByDate l₁ = sortByDate l₂ :=
    List.eq_of_perm_of_sorted hp hstrict1 hstrict2
  unfold calculateKPIs
  rw [hperm.length_eq, hsorteq]

/-- C3 amended witness: the two template records in either order. -/
theorem C3_perm_invariant_witness :
    calculateKPIs [recFeb, recJan] = calculateKPIs [recJan, recFeb] :=
  C3_perm_invariant [recFeb, recJan] [recJan, recFeb] (by decide)
    (List.Perm.swap _ _ _) (by decide)

theorem validateNumber_ok_cases {val : CellValue} {f : String} {mn mx : ℚ} {az : Bool} {v : ℚ}
    (h : validateNumber val f mn mx az = .ok v) :
    (mn ≤ v ∧ v ≤ mx) ∨ v = 0 := by
  unfold validateNumber at h
  split at h
  · split at h
    · exact Or.inr (Except.ok.inj h).symm
    · exact absurd h (by simp)
  · split at h
    · exact absurd h (by simp)
    · rename_i num heq
      split at h
      · exact absurd h (by simp)
      · rename_i hrange
        push_neg at hrange
        have hv := (Except.ok.inj h).symm
        subst hv
        exact Or.inl hrange

theorem validateNumber_num_ok {q : ℚ} {f : String} {mn mx : ℚ} {az : Bool} {v : ℚ}
    (h : validateNumber (.num q) f mn mx az = .ok v) : v = q := by
  unfold validateNumber at h
  rw [if_neg (by simp)] at h
  simp only [jsParseFloatOfString] at h
  split at h
  · exact absurd h (by simp)
  · exact (Except.ok.inj h).symm

theorem parseRow_ok_elim {row : Row} {rec : FinancialData} (h : parseRow row = .ok rec) :
    ∃ d r o c ch ci co cb,
      validateDate (jsOr row.date row.month) = .ok d ∧
      validatePositiveNumber (jsOr (jsOr row.revenue row.mrr) (.num 0)) "Revenue" = .ok r ∧
      validatePositiveNumber (jsOr (jsOr row.operatingExpenses row.expenses) (.num 0))
        "Operating Expenses" = .ok o ∧
      validatePositiveNumber (jsOr (jsOr row.customerCount row.customers) (.num 0))
        "Customer Count" = .ok c ∧
      validatePercentage (jsOr (jsOr row.churnRate row.churn) (.num 0)) "Churn Rate" = .ok ch ∧
      validatePositiveNumber (jsOr row.cashIn (.num 0)) "Cash In" = .ok ci ∧
      validatePositiveNumber (jsOr row.cashOut (.num 0)) "Cash Out" = .ok co ∧
      validateNumber (jsOr row.cashBalance (.num 0)) "Cash Balance"
        MIN_NUMBER_VALUE MAX_NUMBER_VALUE true = .ok cb ∧
      rec = ⟨d, r, o, ((Rat.floor c : Int) : ℚ), ch, ci, co, cb⟩ := by
  unfold parseRow at h
  simp only [bind, Except.bind] at h
  split at h
  · exact absurd h (by simp)
  rename_i d hd
  split at h
  · exact absurd h (by simp)
  rename_i r hr
  split at h
  · exact absurd h (by simp)
  rename_i o ho
  split at h
  · exact absurd h (by simp)
  rename_i c hc
  split at h
  · exact absurd h (by simp)
  rename_i ch hch
  split at h
  · exact absurd h (by simp)
  rename_i ci hci
  split at h
  · exact absurd h (by simp)
  rename_i co hco
  split at h
  · exact absurd h (by simp)
  rename_i cb hcb
  exact ⟨d, r, o, c, ch, ci, co, cb, hd, hr, ho, hc, hch, hci, hco, hcb,
    (Except.ok.inj h).symm⟩

/-- C8: `validateNumber` is idempotent on its accepted outputs — if it
succeeds with result `v` and `v` lies within the field's bounds, then
validating `v` itself (as the numeric cell it now is) with the same
bounds succeeds and returns `v` again. -/
theorem C8_validateNumber_idempotent (val : CellValue) (f : String) (mn mx : ℚ)
    (az : Bool) (v : ℚ)
    (hok : validateNumber val f mn mx az = .ok v)
    (hlo : mn ≤ v) (hhi : v ≤ mx) :
    validateNumber (.num v) f mn mx az = .ok v := by
  unfold validateNumber
  rw [if_neg (by simp)]
  simp only [jsParseFloatOfString]
  rw [if_neg ?_]
  push_neg
  exact ⟨hlo, hhi⟩

/-- C8 witness: the string `"4.5"` validates (as a percentage) to `9/2`,
and re-validating `9/2` returns `9/2` again. -/
theorem C8_validateNumber_idempotent_witness :
    validateNumber (.str "4.5") "Churn Rate" 0 100 true = .ok (9/2) ∧
    validateNumber (.num (9/2)) "Churn Rate" 0 100 true = .ok (9/2) := by
  have h1 : validateNumber (.str "4.5") "Churn Rate" 0 100 true = .ok (9/2) := by
    unfold validateNumber
    rw [if_neg (by simp)]
    have hp0 : jsParseFloatOfString (.str "4.5") =
        some ((1 : ℚ) * ((digitsVal ['4'] 0 : ℚ) +
          (digitsVal ['5'] 0 : ℚ) / (10 : ℚ) ^ (['5'] : List Char).length) *
          (10 : ℚ) ^ (0 : ℤ)) := rfl
    have hval : (1 : ℚ) * ((digitsVal ['4'] 0 : ℚ) +
        (digitsVal ['5'] 0 : ℚ) / (10 : ℚ) ^ (['5'] : List Char).length) *
        (10 : ℚ) ^ (0 : ℤ) = 9/2 := by
      have h4 : digitsVal ['4'] 0 = 4 := rfl
      have h5 : digitsVal ['5'] 0 = 5 := rfl
      rw [h4, h5]
      norm_num
    have hp : jsParseFloatOfString (.str "4.5") = some (9/2) := by
      rw [hp0, hval]
    simp only [hp]
    rw [if_neg (by norm_num)]
  exact ⟨h1, C8_validateNumber_idempotent (.str "4.5") "Churn Rate" 0 100 true (9/2) h1
    (by norm_num) (by norm_num)⟩

theorem truthy_num {q : ℚ} (h : q ≠ 0) : (CellValue.num q).truthy = true := by
  simp [CellValue.truthy, h]

theorem jsOr_truthy {a : CellValue} (b : CellValue) (h : a.truthy = true) :
    jsOr a b = a := by
  unfold jsOr
  rw [h]
  rfl

theorem jsOr_falsy {a : CellValue} (b : CellValue) (h : a.truthy = false) :
    jsOr a b = b := by
  unfold jsOr
  rw [h]
  rfl

/-- C4 counterexample: the claim says a value present in the primary
column — including the value `0` — is used and the alias ignored, but on
a row with `Revenue = 0` and `MRR = 500` the parser stores revenue `500`,
not `0`: resolution follows JavaScript truthiness (`||`), and a `0`
primary value falls through to the alias. -/
theorem C4_counterexample :
    (parseRow rowZeroRev).map FinancialData.revenue = .ok 500 ∧
    (parseRow rowZeroRev).map FinancialData.revenue ≠ .ok 0 := by
  have h : parseRow rowZeroRev =
      .ok ⟨"2024-01-01", 500, 0, ((Rat.floor (0 : ℚ) : Int) : ℚ), 0, 0, 0, 0⟩ := rfl
  rw [h]
  constructor
  · rfl
  · intro hc
    have := Except.ok.inj hc
    norm_num at this

/-- C4 amended: per-field column resolution follows JavaScript
truthiness, not mere presence — for each field the first truthy cell
among (primary, alias, literal 0) is validated, so a non-zero primary
value wins, a falsy primary value (absent, `0`, or `''`) defers to the
alias, and if all alias cells are falsy the numeric field defaults to 0;
a row whose Date and Month cells are both absent fails the whole parse
with the date-required error. -/
theorem C4_resolution (row : Row) :
    (row.date = .empty → row.month = .empty → parseRow row = .error "Date is required") ∧
    (∀ rec, parseRow row = .ok rec →
      ((row.date.truthy = true → ∀ d, validateDate row.date = .ok d → rec.date = d) ∧
       (row.date.truthy = false → ∀ d, validateDate row.month = .ok d → rec.date = d)) ∧
      ((∀ q, row.revenue = .num q → q ≠ 0 → rec.revenue = q) ∧
       (row.revenue.truthy = false → ∀ q, row.mrr = .num q → q ≠ 0 → rec.revenue = q) ∧
       (row.revenue.truthy = false → row.mrr.truthy = false → rec.revenue = 0)) ∧
      ((∀ q, row.operatingExpenses = .num q → q ≠ 0 → rec.operatingExpenses = q) ∧
       (row.operatingExpenses.truthy = false →
         ∀ q, row.expenses = .num q → q ≠ 0 → rec.operatingExpenses = q) ∧
       (row.operatingExpenses.truthy = false → row.expenses.truthy = false →
         rec.operatingExpenses = 0)) ∧
      ((∀ q, row.customerCount = .num q → q ≠ 0 →
         rec.customerCount = ((Rat.floor q : Int) : ℚ)) ∧
       (row.customerCount.truthy = false → ∀ q, row.customers = .num q → q ≠ 0 →
         rec.customerCount = ((Rat.floor q : Int) : ℚ)) ∧
       (row.customerCount.truthy = false → row.customers.truthy = false →
         rec.customerCount = 0)) ∧
      ((∀ q, row.churnRate = .num q → q ≠ 0 → rec.churnRate = q) ∧
       (row.churnRate.truthy = false → ∀ q, row.churn = .num q → q ≠ 0 → rec.churnRate = q) ∧
       (row.churnRate.truthy = false → row.churn.truthy = false → rec.churnRate = 0))) := by
  constructor
  · intro hd hm
    unfold parseRow
    rw [show jsOr row.date row.month = .empty by rw [hd, hm]; rfl]
    rfl
  · intro rec h
    obtain ⟨d, r, o, c, ch, ci, co, cb, hd, hr, ho, hc, hch, _, _, _, hrec⟩ :=
      parseRow_ok_elim h
    have hdate : rec.date = d := by rw [hrec]
    have hrev : rec.revenue = r := by rw [hrec]
    have hopex : rec.operatingExpenses = o := by rw [hrec]
    have hcust : rec.customerCount = ((Rat.floor c : Int) : ℚ) := by rw [hrec]
    have hchurn : rec.churnRate = ch := by rw [hrec]
    unfold validatePositiveNumber at hr ho hc
    unfold validatePercentage at hch
    refine ⟨⟨?_, ?_⟩, ⟨?_, ?_, ?_⟩, ⟨?_, ?_, ?_⟩, ⟨?_, ?_, ?_⟩, ⟨?_, ?_, ?_⟩⟩
    · intro ht d' hd'
      rw [jsOr_truthy _ ht] at hd
      rw [hd] at hd'
      rw [hdate]
      exact Except.ok.inj hd'
    · intro hf d' hd'
      rw [jsOr_falsy _ hf] at hd
      rw [hd] at hd'
      rw [hdate]
      exact Except.ok.inj hd'
    · intro q hq hq0
      rw [hq, jsOr_truthy _ (truthy_num hq0), jsOr_truthy _ (truthy_num hq0)] at hr
      rw [hrev]
      exact validateNumber_num_ok hr
    · intro hf q hq hq0
      rw [jsOr_falsy _ hf, hq, jsOr_truthy _ (truthy_num hq0)] at hr
      rw [hrev]
      exact validateNumber_num_ok hr
    · intro hf1 hf2
      rw [jsOr_falsy _ hf1, jsOr_falsy _ hf2] at hr
      rw [hrev]
      exact validateNumber_num_ok hr
    · intro q hq hq0
      rw [hq, jsOr_truthy _ (truthy_num hq0), jsOr_truthy _ (truthy_num hq0)] at ho
      rw [hopex]
      exact validateNumber_num_ok ho
    · intro hf q hq hq0
      rw [jsOr_falsy _ hf, hq, jsOr_truthy _ (truthy_num hq0)] at ho
      rw [hopex]
      exact validateNumber_num_ok ho
    · intro hf1 hf2
      rw [jsOr_falsy _ hf1, jsOr_falsy _ hf2] at ho
      rw [hopex]
      exact validateNumber_num_ok ho
    · intro q hq hq0
      rw [hq, jsOr_truthy _ (truthy_num hq0), jsOr_truthy _ (truthy_num hq0)] at hc
      rw [hcust, validateNumber_num_ok hc]
    · intro hf q hq hq0
      rw [jsOr_falsy _ hf, hq, jsOr_truthy _ (truthy_num hq0)] at hc
      rw [hcust, validateNumber_num_ok hc]
    · intro hf1 hf2
      rw [jsOr_falsy _ hf1, jsOr_falsy _ hf2] at hc
      rw [hcust, validateNumber_num_ok hc]
      rfl
    · intro q hq hq0
      rw [hq, jsOr_truthy _ (truthy_num hq0), jsOr_truthy _ (truthy_num hq0)] at hch
      rw [hchurn]
      exact validateNumber_num_ok hch
    · intro hf q hq hq0
      rw [jsOr_falsy _ hf, hq, jsOr_truthy _ (truthy_num hq0)] at hch
      rw [hchurn]
      exact validateNumber_num_ok hch
    · intro hf1 hf2
      rw [jsOr_falsy _ hf1, jsOr_falsy _ hf2] at hch
      rw [hchurn]
      exact validateNumber_num_ok hch

/-- C4 amended witness: a row with both date cells absent fails with the
date-required error, and a row with no `Revenue` cell takes its revenue
from the `MRR` alias. -/
theorem C4_resolution_witness :
    parseRow rowNoDate = .error "Date is required" ∧
    (parseRow rowAliasOnly).map FinancialData.revenue = .ok 500 := by
  have h1 := (C4_resolution rowNoDate).1 rfl rfl
  have hok : parseRow rowAliasOnly =
      .ok ⟨"2024-01-01", 500, 200, ((Rat.floor ratTenPointSeven : Int) : ℚ), 3, 40, 60, -100⟩ :=
    rfl
  have h2 := (((C4_resolution rowAliasOnly).2 _ hok).2.1).2.1 rfl 500 rfl (by norm_num)
  refine ⟨h1, ?_⟩
  rw [hok]
  exact congrArg Except.ok h2

theorem parseRowsLoop_error : ∀ (rows : List Row) (off i : Nat) (row : Row) (e : String),
    rows[i]? = some row →
    (∀ j, j < i → ∀ rj, rows[j]? = some rj → ∃ rc, parseRow rj = .ok rc) →
    parseRow row = .error e →
    parseRowsLoop rows off = .error ("Row " ++ toString (off + i + 2) ++ ": " ++ e) := by
  intro rows
  induction rows with
  | nil =>
    intro off i row e hi
    simp at hi
  | cons hd tl ih =>
    intro off i row e hi hprev herr
    cases i with
    | zero =>
      have hhd : hd = row := by simpa using hi
      subst hhd
      unfold parseRowsLoop
      rw [herr]
    | succ i' =>
      obtain ⟨rc, hrc⟩ := hprev 0 (Nat.succ_pos _) hd (by simp)
      unfold parseRowsLoop
      rw [hrc]
      have hrec := ih (off + 1) i' row e (by simpa using hi)
        (fun j hj rj hg => hprev (j + 1) (Nat.succ_lt_succ hj) rj (by simpa using hg)) herr
      rw [hrec]
      have harith : off + 1 + i' + 2 = off + (i' + 1) + 2 := by omega
      rw [harith]
      rfl

/-- C9: parsing is all-or-nothing — if every row before index `i`
validates and the row at index `i` fails with message `e`, the whole
parse aborts with `Row (i+2): e` (the spreadsheet's visible row number:
1-indexing plus the header row), and no record list is returned. -/
theorem C9_all_or_nothing (rows : List Row) (i : Nat) (row : Row) (e : String)
    (hcap : rows.length ≤ MAX_ROWS)
    (hi : rows[i]? = some row)
    (hprev : ∀ j, j < i → ∀ rj, rows[j]? = some rj → ∃ rc, parseRow rj = .ok rc)
    (herr : parseRow row = .error e) :
    parseExcelRows rows = .error ("Row " ++ toString (i + 2) ++ ": " ++ e) := by
  have hne : ¬ rows.length = 0 := by
    intro h0
    rw [List.length_eq_zero] at h0
    subst h0
    simp at hi
  unfold parseExcelRows
  rw [if_neg hne, if_neg (by omega)]
  have hloop := parseRowsLoop_error rows 0 i row e hi hprev herr
  rw [show (0 : Nat) + i + 2 = i + 2 by omega] at hloop
  rw [hloop]

/-- C9 witness: a single row with `Revenue = "abc"` makes the parse fail
with the invalid-number error naming `Revenue` and visible row 2. -/
theorem C9_all_or_nothing_witness :
    parseExcelRows [rowBadRevenue] =
      .error "Row 2: Invalid Revenue: must be a valid number" :=
  C9_all_or_nothing [rowBadRevenue] 0 rowBadRevenue
    "Invalid Revenue: must be a valid number" (by norm_num [MAX_ROWS]) (by simp)
    (fun j hj => absurd hj (Nat.not_lt_zero j)) rfl

theorem parseRowsLoop_ok_mem : ∀ (rows : List Row) (off : Nat) (recs : List FinancialData),
    parseRowsLoop rows off = .ok recs →
    ∀ r ∈ recs, ∃ row, parseRow row = .ok r := by
  intro rows
  induction rows with
  | nil =>
    intro off recs h r hr
    have : ([] : List FinancialData) = recs := Except.ok.inj h
    subst this
    simp at hr
  | cons hd tl ih =>
    intro off recs h r hr
    unfold parseRowsLoop at h
    cases hp : parseRow hd with
    | error e =>
      rw [hp] at h
      exact absurd h (by simp)
    | ok rec =>
      rw [hp] at h
      cases hrest : parseRowsLoop tl (off + 1) with
      | error e =>
        rw [hrest] at h
        exact absurd h (by simp [Except.map])
      | ok tlRecs =>
        rw [hrest] at h
        have hcons : rec :: tlRecs = recs := by
          simpa [Except.map] using h
        subst hcons
        rcases List.mem_cons.mp hr with hhd | htl
        · exact ⟨hd, by rw [hp, hhd]⟩
        · exact ih (off + 1) tlRecs hrest r htl

theorem parseExcelRows_ok_elim {rows : List Row} {recs : List FinancialData}
    (h : parseExcelRows rows = .ok recs) : parseRowsLoop rows 0 = .ok recs := by
  unfold parseExcelRows at h
  split at h
  · exact absurd h (by simp)
  split at h
  · exact absurd h (by simp)
  split at h
  · exact absurd h (by simp)
  rename_i parsed hl
  split at h
  · split at h
    · exact absurd h (by simp)
    · rw [hl]
      exact congrArg Except.ok (Except.ok.inj h)
  · exact absurd h (by simp)

theorem validatePositiveNumber_ok_bounds {val : CellValue} {f : String} {v : ℚ}
    (h : validatePositiveNumber val f = .ok v) : 0 ≤ v ∧ v ≤ MAX_NUMBER_VALUE := by
  unfold validatePositiveNumber at h
  rcases validateNumber_ok_cases h with h' | h'
  · exact h'
  · subst h'
    exact ⟨le_refl 0, by norm_num [MAX_NUMBER_VALUE]⟩

theorem validatePercentage_ok_bounds {val : CellValue} {f : String} {v : ℚ}
    (h : validatePercentage val f = .ok v) : 0 ≤ v ∧ v ≤ 100 := by
  unfold validatePercentage at h
  rcases validateNumber_ok_cases h with h' | h'
  · exact h'
  · subst h'
    norm_num

theorem validateBalance_ok_bounds {val : CellValue} {f : String} {v : ℚ}
    (h : validateNumber val f MIN_NUMBER_VALUE MAX_NUMBER_VALUE true = .ok v) :
    MIN_NUMBER_VALUE ≤ v ∧ v ≤ MAX_NUMBER_VALUE := by
  rcases validateNumber_ok_cases h with h' | h'
  · exact h'
  · subst h'
    constructor <;> norm_num [MIN_NUMBER_VALUE, MAX_NUMBER_VALUE]

theorem ratFloor_eq_intFloor (q : ℚ) : Rat.floor q = ⌊q⌋ := rfl

theorem floorCast_bounds {c : ℚ} (h0 : 0 ≤ c) (h1 : c ≤ MAX_NUMBER_VALUE) :
    0 ≤ ((Rat.floor c : Int) : ℚ) ∧ ((Rat.floor c : Int) : ℚ) ≤ MAX_NUMBER_VALUE := by
  rw [ratFloor_eq_intFloor]
  constructor
  · have : (0 : Int) ≤ ⌊c⌋ := Int.le_floor.mpr (by push_cast; exact h0)
    exact_mod_cast this
  · exact le_trans (Int.floor_le c) h1

theorem floorCast_idem (c : ℚ) :
    ((Rat.floor c : Int) : ℚ) =
      ((Rat.floor ((Rat.floor c : Int) : ℚ) : Int) : ℚ) := by
  rw [ratFloor_eq_intFloor, ratFloor_eq_intFloor, Int.floor_intCast]

/-- C10: every record of a successful parse satisfies the data-model
invariant — revenue, operating expenses, customer count, cash in and
cash out lie in `[0, 10^12]`, the churn rate lies in `[0, 100]`, the
cash balance lies in `[-10^12, 10^12]`, and the customer count is an
integer (it equals its own floor; fractional inputs are floored by the
parser, not rejected, as the witness's `10.7` input shows). -/
theorem C10_record_invariant (rows : List Row) (recs : List FinancialData)
    (hok : parseExcelRows rows = .ok recs) :
    ∀ r ∈ recs,
      0 ≤ r.revenue ∧ r.revenue ≤ MAX_NUMBER_VALUE ∧
      0 ≤ r.operatingExpenses ∧ r.operatingExpenses ≤ MAX_NUMBER_VALUE ∧
      0 ≤ r.customerCount ∧ r.customerCount ≤ MAX_NUMBER_VALUE ∧
      0 ≤ r.churnRate ∧ r.churnRate ≤ 100 ∧
      0 ≤ r.cashIn ∧ r.cashIn ≤ MAX_NUMBER_VALUE ∧
      0 ≤ r.cashOut ∧ r.cashOut ≤ MAX_NUMBER_VALUE ∧
      MIN_NUMBER_VALUE ≤ r.cashBalance ∧ r.cashBalance ≤ MAX_NUMBER_VALUE ∧
      r.customerCount = ((Rat.floor r.customerCount : Int) : ℚ) := by
  intro r hr
  obtain ⟨row, hrow⟩ :=
    parseRowsLoop_ok_mem rows 0 recs (parseExcelRows_ok_elim hok) r hr
  obtain ⟨d, rv, o, c, ch, ci, co, cb, _, hrv, ho, hc, hch, hci, hco, hcb, hrec⟩ :=
    parseRow_ok_elim hrow
  subst hrec
  obtain ⟨hrv1, hrv2⟩ := validatePositiveNumber_ok_bounds hrv
  obtain ⟨ho1, ho2⟩ := validatePositiveNumber_ok_bounds ho
  obtain ⟨hc1, hc2⟩ := validatePositiveNumber_ok_bounds hc
  obtain ⟨hch1, hch2⟩ := validatePercentage_ok_bounds hch
  obtain ⟨hci1, hci2⟩ := validatePositiveNumber_ok_bounds hci
  obtain ⟨hco1, hco2⟩ := validatePositiveNumber_ok_bounds hco
  obtain ⟨hcb1, hcb2⟩ := validateBalance_ok_bounds hcb
  obtain ⟨hf1, hf2⟩ := floorCast_bounds hc1 hc2
  exact ⟨hrv1, hrv2, ho1, ho2, hf1, hf2, hch1, hch2, hci1, hci2, hco1, hco2,
    hcb1, hcb2, floorCast_idem c⟩

/-- C10 witness: one row with a fractional customer count 10.7 parses
successfully (floored to 10), and the invariant holds on the resulting
record. -/
theorem C10_record_invariant_witness :
    parseExcelRows [rowAliasOnly] =
      .ok [⟨"2024-01-01", 500, 200, 10, 3, 40, 60, -100⟩] ∧
    (0 : ℚ) ≤ (500 : ℚ) ∧ (10 : ℚ) ≤ MAX_NUMBER_VALUE ∧
    (10 : ℚ) = ((Rat.floor (10 : ℚ) : Int) : ℚ) := by
  have hok : parseExcelRows [rowAliasOnly] =
      .ok [⟨"2024-01-01", 500, 200, 10, 3, 40, 60, -100⟩] := rfl
  have hinv := C10_record_invariant [rowAliasOnly] _ hok
    ⟨"2024-01-01", 500, 200, 10, 3, 40, 60, -100⟩ (by simp)
  exact ⟨hok, hinv.1, hinv.2.2.2.2.2.1, hinv.2.2.2.2.2.2.2.2.2.2.2.2.2.2⟩
